import Mathlib

/-!
Verification of the `Publisher` class in `payment/rabbitmq.py` (robot-shop
payment service).

The Python class is shallowly embedded:
* the process environment is a function `String → Option String`;
* `Publisher.__init__` becomes `Publisher.init`, returning `Except String Obj`
  (it raises `RuntimeError` when required variables are missing);
* the pika connection and channel objects are modelled by records carrying an
  identity (`id`, a fresh number per created object) and an `isOpen` flag
  (pika exposes `is_open` / `is_closed` on both);
* broker-side effects (opening a connection, opening a channel, declaring an
  exchange, `basic_publish`, closing a connection) and logger calls are
  recorded in an event trace;
* `json.dumps(msg).encode()` becomes `utf8Encode (dumps msg)`, with `dumps` a
  model of `json.dumps` under its default options (ensure_ascii on, default
  separators) and `utf8Encode` the UTF-8 byte encoding.
-/

namespace RobotShop

/-- A JSON value, as accepted by `json.dumps` (floats are not used by the
payment service's messages and are omitted from the model). -/
inductive Json where
  | null
  | bool (b : Bool)
  | int (n : Int)
  | str (s : String)
  | arr (xs : List Json)
  | obj (kvs : List (String × Json))

/-- Lower-case hexadecimal digit, as produced by Python's json escaping. -/
def hexDigit (n : Nat) : Char :=
  if n < 10 then Char.ofNat (48 + n) else Char.ofNat (87 + n)

/-- Four hex digits, the `XXXX` of a `\uXXXX` escape. -/
def hex4 (n : Nat) : String :=
  String.mk [hexDigit (n / 4096 % 16), hexDigit (n / 256 % 16),
             hexDigit (n / 16 % 16), hexDigit (n % 16)]

/-- Escaping of one character in a JSON string literal, following Python's
`json.dumps` with `ensure_ascii=True`: characters outside `0x20`–`0x7e` are
escaped, two-character escapes are used where they exist, astral characters
become a surrogate pair. -/
def escapeChar (c : Char) : String :=
  if c = '"' then "\\\""
  else if c = '\\' then "\\\\"
  else if c = '\n' then "\\n"
  else if c = '\r' then "\\r"
  else if c = '\t' then "\\t"
  else if c.toNat = 8 then "\\b"
  else if c.toNat = 12 then "\\f"
  else if c.toNat < 0x20 ∨ c.toNat > 0x7e then
    if c.toNat < 0x10000 then "\\u" ++ hex4 c.toNat
    else
      "\\u" ++ hex4 (0xd800 + (c.toNat - 0x10000) / 1024) ++
      "\\u" ++ hex4 (0xdc00 + (c.toNat - 0x10000) % 1024)
  else String.mk [c]

/-- A JSON string literal: quotes around the escaped characters. -/
def dumpsStr (s : String) : String :=
  "\"" ++ String.join (s.data.map escapeChar) ++ "\""

mutual

/-- Model of `json.dumps` with its default options: default separators
`", "` and `": "`, `ensure_ascii=True`, no indent, no key sorting. -/
def dumps : Json → String
  | .null => "null"
  | .bool true => "true"
  | .bool false => "false"
  | .int n => toString n
  | .str s => dumpsStr s
  | .arr xs => "[" ++ dumpsArr xs ++ "]"
  | .obj kvs => "\x7b" ++ dumpsObj kvs ++ "\x7d"

/-- Array elements joined by `", "`. -/
def dumpsArr : List Json → String
  | [] => ""
  | [x] => dumps x
  | x :: y :: xs => dumps x ++ ", " ++ dumpsArr (y :: xs)

/-- Object members `"key": value` joined by `", "`. -/
def dumpsObj : List (String × Json) → String
  | [] => ""
  | [(k, v)] => dumpsStr k ++ ": " ++ dumps v
  | (k, v) :: p :: kvs => dumpsStr k ++ ": " ++ dumps v ++ ", " ++ dumpsObj (p :: kvs)

end

/-- UTF-8 encoding of one character (the model of `str.encode()`). -/
def utf8Char (c : Char) : List Nat :=
  let n := c.toNat
  if n < 0x80 then [n]
  else if n < 0x800 then
    [0xc0 + n / 64, 0x80 + n % 64]
  else if n < 0x10000 then
    [0xe0 + n / 4096, 0x80 + n / 64 % 64, 0x80 + n % 64]
  else
    [0xf0 + n / 262144, 0x80 + n / 4096 % 64, 0x80 + n / 64 % 64, 0x80 + n % 64]

/-- UTF-8 encoding of a string as a byte list (the model of `str.encode()`). -/
def utf8Encode (s : String) : List Nat :=
  (s.data.map utf8Char).flatten

/-- Python truthiness of an optional string: `None` and `""` are falsy
(`if not v` in the source). -/
def pyTruthy : Option String → Bool
  | none => false
  | some s => !(s == "")

/-- How a `str`-or-`None` attribute renders inside an f-string. -/
def pyStr : Option String → String
  | none => "None"
  | some s => s

/-- The `pika.ConnectionParameters` built in the constructor: host, virtual
host, `PlainCredentials(user, pass)`, heartbeat and blocked-connection
timeout.  Built once in `__init__` (source lines 28–34). -/
structure ConnParams where
  host : Option String
  virtual_host : String
  user : Option String
  password : Option String
  heartbeat : Nat
  blocked_connection_timeout : Nat
deriving DecidableEq

/-- The attributes of a `Publisher` set in `__init__` and never reassigned:
the environment-derived configuration and the immutable connection
parameters. -/
structure Publisher where
  HOST : Option String
  USER : Option String
  PASS : Option String
  VIRTUAL_HOST : String
  EXCHANGE : String
  TYPE : String
  ROUTING_KEY : String
  params : ConnParams
deriving DecidableEq

/-- A pika `BlockingConnection`: an identity and its `is_open` flag
(`is_closed` is its negation). -/
structure Conn where
  id : Nat
  isOpen : Bool
deriving DecidableEq

/-- A pika channel: an identity and its `is_open` flag. -/
structure Channel where
  id : Nat
  isOpen : Bool
deriving DecidableEq

/-- An observable effect: a broker operation or a logger call. -/
inductive Event where
  | openConnection (connId : Nat)
  | openChannel (connId chanId : Nat)
  | exchangeDeclare (exchange exchangeType : String) (durable : Bool)
  | basicPublish (exchange routingKey : String) (body : List Nat)
      (headers : List (String × String))
  | closeConnection (connId : Nat)
  | logInfo (msg : String)
deriving DecidableEq

/-- The full state of a `Publisher` object: the immutable attributes, the
mutable `_conn` / `_channel` fields (both `None` after construction), and a
counter supplying fresh identities for newly created pika objects. -/
structure Obj where
  pub : Publisher
  conn : Option Conn
  channel : Option Channel
  nextId : Nat
deriving DecidableEq

/-- The ordered dict `{"AMQP_HOST": HOST, "AMQP_USER": USER,
"AMQP_PASS": PASS}` from source lines 19–23. -/
def requiredVars (h u p : Option String) : List (String × Option String) :=
  [("AMQP_HOST", h), ("AMQP_USER", u), ("AMQP_PASS", p)]

/-- The three required variable names, in the dict's insertion order. -/
def requiredNames : List String := ["AMQP_HOST", "AMQP_USER", "AMQP_PASS"]

/-- `missing = [k for k, v in {...}.items() if not v]` (source lines 19–23). -/
def missingOf (env : String → Option String) : List String :=
  ((requiredVars (env "AMQP_HOST") (env "AMQP_USER") (env "AMQP_PASS")).filter
    (fun kv => !pyTruthy kv.2)).map (fun kv => kv.1)

/-- The attribute assignments of `__init__` (source lines 9–16): `os.getenv`
for the three required variables, `os.getenv` with a default for the four
optional ones, and the `pika.ConnectionParameters` of lines 28–34. -/
def mkPublisher (env : String → Option String) : Publisher :=
  { HOST := env "AMQP_HOST",
    USER := env "AMQP_USER",
    PASS := env "AMQP_PASS",
    VIRTUAL_HOST := (env "AMQP_VHOST").getD "/",
    EXCHANGE := (env "AMQP_EXCHANGE").getD "robot-shop",
    TYPE := (env "AMQP_EXCHANGE_TYPE").getD "direct",
    ROUTING_KEY := (env "AMQP_ROUTING_KEY").getD "orders",
    params :=
      { host := env "AMQP_HOST",
        virtual_host := (env "AMQP_VHOST").getD "/",
        user := env "AMQP_USER",
        password := env "AMQP_PASS",
        heartbeat := 30,
        blocked_connection_timeout := 30 } }

/-- `Publisher.__init__` (source lines 6–37): read the environment, fail fast
with `RuntimeError` enumerating the missing required variables, otherwise
build the connection parameters and leave `_conn` and `_channel` unset
(`self._conn = None`, `self._channel = None`). -/
def Publisher.init (env : String → Option String) : Except String Obj :=
  if (missingOf env).isEmpty then
    .ok { pub := mkPublisher env, conn := none, channel := none, nextId := 0 }
  else
    .error ("Missing RabbitMQ env vars: " ++ String.intercalate ", " (missingOf env))

/-- The guard `not self._conn or self._conn.is_closed` used by both
`_connect` (line 40) and `publish` (line 53). -/
def needsConnect : Option Conn → Bool
  | none => true
  | some c => !c.isOpen

/-- The log line emitted by `_connect` (source lines 48–50). -/
def connectLog (p : Publisher) : String :=
  "connected to broker " ++ pyStr p.HOST ++ " vhost=" ++ p.VIRTUAL_HOST

/-- `Publisher._connect` (source lines 39–50): when no connection exists or
the previous one is closed, open a connection, open a channel on it, declare
the configured exchange as durable and log; otherwise do nothing. -/
def connect (o : Obj) : Obj × List Event :=
  if needsConnect o.conn then
    ( { o with conn := some { id := o.nextId, isOpen := true },
               channel := some { id := o.nextId + 1, isOpen := true },
               nextId := o.nextId + 2 },
      [ .openConnection o.nextId,
        .openChannel o.nextId (o.nextId + 1),
        .exchangeDeclare o.pub.EXCHANGE o.pub.TYPE true,
        .logInfo (connectLog o.pub) ] )
  else (o, [])

/-- `headers or {}` from source line 60: a falsy headers argument (`None` or
an empty dict) is replaced by an empty dict. -/
def orEmpty : Option (List (String × String)) → List (String × String)
  | none => []
  | some h => if h.isEmpty then [] else h

/-- The guarded `self._connect()` call of `publish` (source lines 53–54). -/
def connectIfNeeded (o : Obj) : Obj × List Event :=
  if needsConnect o.conn then connect o else (o, [])

/-- `Publisher.publish` (source lines 52–63): reconnect when the connection
is absent or closed, then `basic_publish` the JSON-encoded message on
`self._channel` with the configured exchange and routing key, then log.
The two error branches are the library's behavior at the `basic_publish`
call site: accessing `basic_publish` on a `_channel` that is still `None`
raises `AttributeError`, and pika's `basic_publish` on a closed channel
raises `ChannelWrongStateError` instead of sending. -/
def publish (o : Obj) (msg : Json) (headers : Option (List (String × String))) :
    Except String (Obj × List Event) :=
  match connectIfNeeded o with
  | (o1, evs) =>
    match o1.channel with
    | none => .error "AttributeError"
    | some ch =>
        if ch.isOpen then
          .ok (o1, evs ++
            [ .basicPublish o1.pub.EXCHANGE o1.pub.ROUTING_KEY
                (utf8Encode (dumps msg)) (orEmpty headers),
              .logInfo "message sent to queue" ])
        else .error "ChannelWrongStateError"

/-- `Publisher.close` (source lines 65–67): `if self._conn and
self._conn.is_open: self._conn.close()`.  Closing a pika connection also
closes its channels, so the channel's `is_open` flag drops too; the
`_channel` attribute itself is not reassigned. -/
def close (o : Obj) : Obj × List Event :=
  match o.conn with
  | some c =>
      if c.isOpen then
        ( { o with conn := some { c with isOpen := false },
                   channel := o.channel.map (fun ch => { ch with isOpen := false }) },
          [ .closeConnection c.id ] )
      else (o, [])
  | none => (o, [])

/-- Modelled from pika semantics, not from code of this repository: the
broker may close a channel while its connection stays open (for example on a
channel-level protocol error), flipping the channel's `is_closed` flag. -/
def brokerClosesChannel (o : Obj) : Obj :=
  { o with channel := o.channel.map (fun ch => { ch with isOpen := false }) }

/-- An environment given as an association list. -/
def envOfList (l : List (String × String)) : String → Option String :=
  fun k => (l.find? (fun kv => kv.1 == k)).map (fun kv => kv.2)

/-- Does an event establish the connection (part of the connect sequence)? -/
def isConnEstablishing : Event → Bool
  | .openConnection _ => true
  | .openChannel _ _ => true
  | .exchangeDeclare _ _ _ => true
  | _ => false

/-- Is an event a `basic_publish` call? -/
def isBasicPublish : Event → Bool
  | .basicPublish _ _ _ _ => true
  | _ => false

/-- Number of `openConnection` events in a trace (how many times a new
broker connection was opened). -/
def countOpens : List Event → Nat
  | [] => 0
  | .openConnection _ :: t => countOpens t + 1
  | _ :: t => countOpens t

/-- A fully populated environment with only the required variables. -/
def envFull : String → Option String :=
  envOfList [("AMQP_HOST", "rabbitmq"), ("AMQP_USER", "guest"), ("AMQP_PASS", "guest")]

/-- An environment missing `AMQP_HOST` and `AMQP_PASS`. -/
def envMissing : String → Option String :=
  envOfList [("AMQP_USER", "guest")]

/-- An environment whose `AMQP_HOST` is set but empty. -/
def envEmptyHost : String → Option String :=
  envOfList [("AMQP_HOST", ""), ("AMQP_USER", "guest"), ("AMQP_PASS", "guest")]

/-- An environment setting every variable, required and optional. -/
def envAll : String → Option String :=
  envOfList [("AMQP_HOST", "rabbitmq"), ("AMQP_USER", "guest"), ("AMQP_PASS", "guest"),
             ("AMQP_VHOST", "/tenant"), ("AMQP_EXCHANGE", "shop"),
             ("AMQP_EXCHANGE_TYPE", "topic"), ("AMQP_ROUTING_KEY", "payments")]

/-- The object produced by constructing against `envAll`. -/
def objAll : Obj :=
  { pub := mkPublisher envAll, conn := none, channel := none, nextId := 0 }

/-- A sample message. -/
def msgA : Json := Json.obj [("orderid", Json.str "42"), ("total", Json.int 99)]

/-- The object produced by constructing against `envFull`. -/
def objFull : Obj :=
  { pub := mkPublisher envFull, conn := none, channel := none, nextId := 0 }

/-- `objFull` after its first successful publish: connection 0 and channel 1
are open. -/
def objLive : Obj :=
  { pub := mkPublisher envFull, conn := some { id := 0, isOpen := true },
    channel := some { id := 1, isOpen := true }, nextId := 2 }

/-- `objLive` after the broker closed the channel (connection still open). -/
def objStale : Obj :=
  { pub := mkPublisher envFull, conn := some { id := 0, isOpen := true },
    channel := some { id := 1, isOpen := false }, nextId := 2 }

/-- `objLive` after `close()`: connection and channel flagged closed. -/
def objClosed : Obj :=
  { pub := mkPublisher envFull, conn := some { id := 0, isOpen := false },
    channel := some { id := 1, isOpen := false }, nextId := 2 }

/-- `objClosed` after a reconnecting publish: connection 2, channel 3. -/
def objReconnected : Obj :=
  { pub := mkPublisher envFull, conn := some { id := 2, isOpen := true },
    channel := some { id := 3, isOpen := true }, nextId := 4 }

/-- The trace of the first publish from `objFull` (full connect sequence
followed by the send). -/
def pubTrace1 : List Event :=
  [ .openConnection 0, .openChannel 0 1,
    .exchangeDeclare "robot-shop" "direct" true,
    .logInfo (connectLog objFull.pub),
    .basicPublish "robot-shop" "orders" (utf8Encode (dumps msgA)) [],
    .logInfo "message sent to queue" ]

/-- The trace of a publish on an already-live connection. -/
def pubTrace2 : List Event :=
  [ .basicPublish "robot-shop" "orders" (utf8Encode (dumps msgA)) [],
    .logInfo "message sent to queue" ]

/-- The trace of the reconnecting publish performed after `close()`. -/
def pubTrace3 : List Event :=
  [ .openConnection 2, .openChannel 2 3,
    .exchangeDeclare "robot-shop" "direct" true,
    .logInfo (connectLog objLive.pub),
    .basicPublish "robot-shop" "orders" (utf8Encode (dumps msgA)) [],
    .logInfo "message sent to queue" ]

/-! ### Helper lemmas -/

theorem truthy_some {v : Option String} (h : pyTruthy v = true) :
    ∃ s, v = some s ∧ (s == "") = false := by
  cases v with
  | none => exact absurd h (by simp [pyTruthy])
  | some s => exact ⟨s, rfl, by simpa [pyTruthy] using h⟩

theorem notTruthy_eq_isNone {v : Option String} (h : v = none ∨ pyTruthy v = true) :
    (!pyTruthy v) = v.isNone := by
  rcases h with h | h
  · subst h; rfl
  · rcases truthy_some h with ⟨s, rfl, hs⟩
    simp [pyTruthy, hs]

/-- Under the assumption that every required variable is either absent or
truthy, the `missing` list computed by the constructor is exactly the list of
absent names, in declaration order. -/
theorem missingOf_eq (env : String → Option String)
    (hset : ∀ k ∈ requiredNames, env k = none ∨ pyTruthy (env k) = true) :
    missingOf env = requiredNames.filter (fun k => (env k).isNone) := by
  have hH := notTruthy_eq_isNone (hset "AMQP_HOST" (by simp [requiredNames]))
  have hU := notTruthy_eq_isNone (hset "AMQP_USER" (by simp [requiredNames]))
  have hP := notTruthy_eq_isNone (hset "AMQP_PASS" (by simp [requiredNames]))
  cases hb1 : (env "AMQP_HOST").isNone <;> cases hb2 : (env "AMQP_USER").isNone <;>
    cases hb3 : (env "AMQP_PASS").isNone <;>
      simp [missingOf, requiredVars, requiredNames, List.filter, hH, hU, hP,
        hb1, hb2, hb3]

theorem isEmpty_false_of_mem {l : List String} {k : String} (h : k ∈ l) :
    l.isEmpty = false := by
  cases l with
  | nil => exact absurd h (List.not_mem_nil k)
  | cons a t => rfl

/-! ### C1 -/

/-- C1: constructing a `Publisher` when any of `AMQP_HOST`, `AMQP_USER`,
`AMQP_PASS` is absent fails with an error whose message enumerates exactly
the names of the absent subset (in declaration order), provided the present
required variables are set to non-empty values. -/
theorem init_error_lists_missing (env : String → Option String)
    (hset : ∀ k ∈ requiredNames, env k = none ∨ pyTruthy (env k) = true)
    (hmiss : ∃ k ∈ requiredNames, env k = none) :
    Publisher.init env =
      .error ("Missing RabbitMQ env vars: " ++ String.intercalate ", "
        (requiredNames.filter (fun k => (env k).isNone))) := by
  have hmof := missingOf_eq env hset
  have hne : (missingOf env).isEmpty = false := by
    rcases hmiss with ⟨k, hk, hknone⟩
    refine isEmpty_false_of_mem (l := missingOf env) (k := k) ?_
    rw [hmof]
    exact List.mem_filter.mpr ⟨hk, by simp [hknone]⟩
  rw [Publisher.init, if_neg (by simp [hne]), hmof]

/-- Witness for C1 at a concrete environment where `AMQP_HOST` and
`AMQP_PASS` are absent: the error lists exactly those two names. -/
theorem init_error_lists_missing_witness :
    Publisher.init envMissing =
      .error ("Missing RabbitMQ env vars: " ++ String.intercalate ", "
        (requiredNames.filter (fun k => (envMissing k).isNone))) ∧
    requiredNames.filter (fun k => (envMissing k).isNone) = ["AMQP_HOST", "AMQP_PASS"] :=
  ⟨init_error_lists_missing envMissing (by decide) ⟨"AMQP_HOST", by decide, by decide⟩,
   by decide⟩

/-! ### C9 -/

theorem mem_missingOf (env : String → Option String) (k : String)
    (hk : k ∈ requiredNames) (hfalsy : pyTruthy (env k) = false) :
    k ∈ missingOf env := by
  have hmem : (k, env k) ∈
      requiredVars (env "AMQP_HOST") (env "AMQP_USER") (env "AMQP_PASS") := by
    simp only [requiredNames, List.mem_cons, List.not_mem_nil, or_false] at hk
    rcases hk with rfl | rfl | rfl <;> simp [requiredVars]
  have hf : (k, env k) ∈
      (requiredVars (env "AMQP_HOST") (env "AMQP_USER") (env "AMQP_PASS")).filter
        (fun kv => !pyTruthy kv.2) :=
    List.mem_filter.mpr ⟨hmem, by simp [hfalsy]⟩
  exact List.mem_map_of_mem _ hf

/-- C9: a required environment variable that is present but equal to `""` is
treated like an absent one: the constructor raises the configuration error
and the variable's name is among the enumerated missing ones (the check
tests Python falsiness of the value, not presence of the key). -/
theorem init_empty_string_missing (env : String → Option String) (k : String)
    (hk : k ∈ requiredNames) (he : env k = some "") :
    k ∈ missingOf env ∧
    Publisher.init env =
      .error ("Missing RabbitMQ env vars: " ++
        String.intercalate ", " (missingOf env)) := by
  have hkm : k ∈ missingOf env := mem_missingOf env k hk (by rw [he]; decide)
  have hne : (missingOf env).isEmpty = false := isEmpty_false_of_mem hkm
  exact ⟨hkm, by rw [Publisher.init, if_neg (by simp [hne])]⟩

/-- Witness for C9: `AMQP_HOST` set to the empty string is reported
missing. -/
theorem init_empty_string_missing_witness :
    "AMQP_HOST" ∈ missingOf envEmptyHost ∧
    Publisher.init envEmptyHost =
      .error ("Missing RabbitMQ env vars: " ++
        String.intercalate ", " (missingOf envEmptyHost)) :=
  init_empty_string_missing envEmptyHost "AMQP_HOST" (by decide) (by decide)

/-! ### C6 -/

theorem init_ok_of (env : String → Option String)
    (h : (missingOf env).isEmpty = true) :
    Publisher.init env =
      .ok { pub := mkPublisher env, conn := none, channel := none, nextId := 0 } := by
  rw [Publisher.init, if_pos h]

/-- C6: with all three required variables set to truthy values, construction
succeeds and leaves `_conn` and `_channel` unset (`None`).  The constructor
has no event trace in the model: broker traffic only arises from `connect`,
`publish` and `close`, so no connection, channel or exchange declaration
exists before the first publish. -/
theorem init_all_set_lazy (env : String → Option String)
    (hH : pyTruthy (env "AMQP_HOST") = true)
    (hU : pyTruthy (env "AMQP_USER") = true)
    (hP : pyTruthy (env "AMQP_PASS") = true) :
    ∃ o : Obj, Publisher.init env = .ok o ∧ o.conn = none ∧ o.channel = none := by
  have hempty : (missingOf env).isEmpty = true := by
    simp [missingOf, requiredVars, List.filter, hH, hU, hP]
  exact ⟨_, init_ok_of env hempty, rfl, rfl⟩

/-- Witness for C6 at a concrete fully-set environment. -/
theorem init_all_set_lazy_witness :
    ∃ o : Obj, Publisher.init envFull = .ok o ∧ o.conn = none ∧ o.channel = none :=
  init_all_set_lazy envFull (by decide) (by decide) (by decide)

/-! ### C7 -/

/-- C7: each optional environment variable defaults as documented
(`AMQP_VHOST` to `"/"`, `AMQP_EXCHANGE` to `"robot-shop"`,
`AMQP_EXCHANGE_TYPE` to `"direct"`, `AMQP_ROUTING_KEY` to `"orders"`) and,
when set, the environment's value is used instead. -/
theorem init_optional_defaults (env : String → Option String) (o : Obj)
    (hok : Publisher.init env = .ok o) :
    o.pub.VIRTUAL_HOST = (env "AMQP_VHOST").getD "/" ∧
    o.pub.EXCHANGE = (env "AMQP_EXCHANGE").getD "robot-shop" ∧
    o.pub.TYPE = (env "AMQP_EXCHANGE_TYPE").getD "direct" ∧
    o.pub.ROUTING_KEY = (env "AMQP_ROUTING_KEY").getD "orders" := by
  rw [Publisher.init] at hok
  split at hok
  · injection hok with h
    subst h
    exact ⟨rfl, rfl, rfl, rfl⟩
  · exact Except.noConfusion hok

/-- Witness for C7: the defaults at an environment leaving the optional
variables unset, and the overriding values at a fully-set environment. -/
theorem init_optional_defaults_witness :
    (objFull.pub.VIRTUAL_HOST = (envFull "AMQP_VHOST").getD "/" ∧
     objFull.pub.EXCHANGE = (envFull "AMQP_EXCHANGE").getD "robot-shop" ∧
     objFull.pub.TYPE = (envFull "AMQP_EXCHANGE_TYPE").getD "direct" ∧
     objFull.pub.ROUTING_KEY = (envFull "AMQP_ROUTING_KEY").getD "orders") ∧
    (objAll.pub.VIRTUAL_HOST = (envAll "AMQP_VHOST").getD "/" ∧
     objAll.pub.EXCHANGE = (envAll "AMQP_EXCHANGE").getD "robot-shop" ∧
     objAll.pub.TYPE = (envAll "AMQP_EXCHANGE_TYPE").getD "direct" ∧
     objAll.pub.ROUTING_KEY = (envAll "AMQP_ROUTING_KEY").getD "orders") :=
  ⟨init_optional_defaults envFull objFull rfl,
   init_optional_defaults envAll objAll rfl⟩

/-! ### Connection-machinery lemmas -/

theorem connect_of_needs {o : Obj} (h : needsConnect o.conn = true) :
    connect o =
      ({ o with conn := some { id := o.nextId, isOpen := true },
                channel := some { id := o.nextId + 1, isOpen := true },
                nextId := o.nextId + 2 },
       [ .openConnection o.nextId, .openChannel o.nextId (o.nextId + 1),
         .exchangeDeclare o.pub.EXCHANGE o.pub.TYPE true,
         .logInfo (connectLog o.pub) ]) := by
  rw [connect, if_pos h]

theorem connect_of_live {o : Obj} (h : needsConnect o.conn = false) :
    connect o = (o, []) := by
  rw [connect, if_neg (by simp [h])]

theorem needsConnect_false_iff (k : Option Conn) :
    needsConnect k = false ↔ ∃ c, k = some c ∧ c.isOpen = true := by
  cases k with
  | none => simp [needsConnect]
  | some c => cases h : c.isOpen <;> simp [needsConnect, h]

theorem connect_pub (o : Obj) : (connect o).1.pub = o.pub := by
  unfold connect
  split <;> rfl

theorem close_of_open {o : Obj} {c : Conn} (hc : o.conn = some c)
    (hopen : c.isOpen = true) :
    close o =
      ({ o with conn := some { c with isOpen := false },
                channel := o.channel.map (fun ch => { ch with isOpen := false }) },
       [ .closeConnection c.id ]) := by
  unfold close
  rw [hc]
  simp [hopen]

theorem publish_of_needs {o : Obj} (h : needsConnect o.conn = true)
    (msg : Json) (hs : Option (List (String × String))) :
    publish o msg hs =
      .ok ({ o with conn := some { id := o.nextId, isOpen := true },
                    channel := some { id := o.nextId + 1, isOpen := true },
                    nextId := o.nextId + 2 },
        [ .openConnection o.nextId, .openChannel o.nextId (o.nextId + 1),
          .exchangeDeclare o.pub.EXCHANGE o.pub.TYPE true,
          .logInfo (connectLog o.pub),
          .basicPublish o.pub.EXCHANGE o.pub.ROUTING_KEY
            (utf8Encode (dumps msg)) (orEmpty hs),
          .logInfo "message sent to queue" ]) := by
  unfold publish connectIfNeeded
  rw [if_pos h, connect_of_needs h]
  rfl

theorem publish_of_live {o : Obj} {c : Conn} {ch : Channel}
    (hc : o.conn = some c) (hopen : c.isOpen = true) (hch : o.channel = some ch)
    (hchopen : ch.isOpen = true)
    (msg : Json) (hs : Option (List (String × String))) :
    publish o msg hs =
      .ok (o, [ .basicPublish o.pub.EXCHANGE o.pub.ROUTING_KEY
                  (utf8Encode (dumps msg)) (orEmpty hs),
                .logInfo "message sent to queue" ]) := by
  have h : needsConnect o.conn = false := by rw [hc]; simp [needsConnect, hopen]
  unfold publish connectIfNeeded
  rw [if_neg (by simp [h])]
  simp only [hch, hchopen, if_true, List.nil_append]

theorem publish_of_stale {o : Obj} {c : Conn} {ch : Channel}
    (hc : o.conn = some c) (hopen : c.isOpen = true) (hch : o.channel = some ch)
    (hstale : ch.isOpen = false)
    (msg : Json) (hs : Option (List (String × String))) :
    publish o msg hs = .error "ChannelWrongStateError" := by
  have h : needsConnect o.conn = false := by rw [hc]; simp [needsConnect, hopen]
  unfold publish connectIfNeeded
  rw [if_neg (by simp [h])]
  simp only [hch, hstale, Bool.false_eq_true, if_false]

/-- A successful publish always ends in a state whose connection and channel
exist and are open, with the attribute record untouched. -/
theorem publish_ok_state {o o2 : Obj} {msg : Json}
    {hs : Option (List (String × String))} {t : List Event}
    (hok : publish o msg hs = .ok (o2, t)) :
    (∃ c, o2.conn = some c ∧ c.isOpen = true) ∧
    (∃ ch, o2.channel = some ch ∧ ch.isOpen = true) ∧ o2.pub = o.pub := by
  cases hn : needsConnect o.conn with
  | true =>
    rw [publish_of_needs hn msg hs] at hok
    injection hok with h
    injection h with h1 h2
    subst h1
    exact ⟨⟨_, rfl, rfl⟩, ⟨_, rfl, rfl⟩, rfl⟩
  | false =>
    rcases (needsConnect_false_iff o.conn).mp hn with ⟨c, hc, hopen⟩
    cases hch : o.channel with
    | none =>
      rw [show publish o msg hs = .error "AttributeError" by
            unfold publish connectIfNeeded
            rw [if_neg (by simp [hn])]
            simp only [hch]] at hok
      exact Except.noConfusion hok
    | some ch =>
      cases hchopen : ch.isOpen with
      | true =>
        rw [publish_of_live hc hopen hch hchopen msg hs] at hok
        injection hok with h
        injection h with h1 h2
        subst h1
        exact ⟨⟨c, hc, hopen⟩, ⟨ch, hch, hchopen⟩, rfl⟩
      | false =>
        rw [publish_of_stale hc hopen hch hchopen msg hs] at hok
        exact Except.noConfusion hok

theorem countOpens_append (a b : List Event) :
    countOpens (a ++ b) = countOpens a + countOpens b := by
  induction a with
  | nil => simp [countOpens]
  | cons e t ih =>
    cases e <;> simp [countOpens, ih, Nat.add_right_comm]

/-! ### C5 -/

/-- C5: `_connect` is idempotent: when an open connection exists it is a
no-op (same state, no events, hence no new connection or channel, no
exchange declaration and no log line); otherwise it opens a connection and
a channel and declares the configured exchange with the configured type and
`durable := true`. -/
theorem connect_noop_or_connects (o : Obj) :
    (∀ c, o.conn = some c → c.isOpen = true → connect o = (o, [])) ∧
    (needsConnect o.conn = true →
      connect o =
        ({ o with conn := some { id := o.nextId, isOpen := true },
                  channel := some { id := o.nextId + 1, isOpen := true },
                  nextId := o.nextId + 2 },
         [ .openConnection o.nextId, .openChannel o.nextId (o.nextId + 1),
           .exchangeDeclare o.pub.EXCHANGE o.pub.TYPE true,
           .logInfo (connectLog o.pub) ])) := by
  constructor
  · intro c hc hopen
    exact connect_of_live (by rw [hc]; simp [needsConnect, hopen])
  · intro h
    exact connect_of_needs h

/-- Witness for C5: a no-op on the already-connected object, a full connect
sequence on the fresh one. -/
theorem connect_noop_or_connects_witness :
    connect objLive = (objLive, []) ∧
    connect objFull =
      (objLive,
       [ Event.openConnection 0, Event.openChannel 0 1,
         Event.exchangeDeclare "robot-shop" "direct" true,
         Event.logInfo (connectLog objFull.pub) ]) :=
  ⟨(connect_noop_or_connects objLive).1 { id := 0, isOpen := true } rfl rfl,
   (connect_noop_or_connects objFull).2 rfl⟩

/-! ### C10 -/

/-- C10: the heartbeat and blocked-connection timeout are hard-coded to 30
for every environment (no variable configures them), and the attribute
record — the connection parameters included — is never modified by
`_connect`, `publish` or `close`. -/
theorem params_hardcoded (env : String → Option String) (o : Obj)
    (hok : Publisher.init env = .ok o) :
    o.pub.params.heartbeat = 30 ∧ o.pub.params.blocked_connection_timeout = 30 ∧
    (∀ o2 : Obj, (connect o2).1.pub = o2.pub) ∧
    (∀ o2 : Obj, (close o2).1.pub = o2.pub) ∧
    (∀ (o2 o3 : Obj) (msg : Json) (hs : Option (List (String × String)))
        (t : List Event), publish o2 msg hs = .ok (o3, t) → o3.pub = o2.pub) := by
  refine ⟨?_, ?_, ?_, ?_, ?_⟩
  · rw [Publisher.init] at hok
    split at hok
    · injection hok with h
      subst h
      rfl
    · exact Except.noConfusion hok
  · rw [Publisher.init] at hok
    split at hok
    · injection hok with h
      subst h
      rfl
    · exact Except.noConfusion hok
  · exact connect_pub
  · intro o2
    cases hc : o2.conn with
    | none => unfold close; rw [hc]
    | some c =>
      cases hop : c.isOpen with
      | true => rw [close_of_open hc hop]
      | false =>
        unfold close
        rw [hc]
        simp [hop]
  · intro o2 o3 msg hs t hok2
    exact (publish_ok_state hok2).2.2

/-- Witness for C10 at concrete inputs. -/
theorem params_hardcoded_witness :
    objFull.pub.params.heartbeat = 30 ∧
    objFull.pub.params.blocked_connection_timeout = 30 ∧
    (connect objLive).1.pub = objLive.pub ∧
    (close objLive).1.pub = objLive.pub ∧
    objLive.pub = objFull.pub := by
  have h := params_hardcoded envFull objFull rfl
  exact ⟨h.1, h.2.1, h.2.2.1 objLive, h.2.2.2.1 objLive,
    h.2.2.2.2 objFull objLive msgA none
      [ Event.openConnection 0, Event.openChannel 0 1,
        Event.exchangeDeclare "robot-shop" "direct" true,
        Event.logInfo (connectLog objFull.pub),
        Event.basicPublish "robot-shop" "orders" (utf8Encode (dumps msgA)) [],
        Event.logInfo "message sent to queue" ] rfl⟩

theorem publish_no_channel {o : Obj} (hn : needsConnect o.conn = false)
    (hch : o.channel = none) (msg : Json) (hs : Option (List (String × String))) :
    publish o msg hs = .error "AttributeError" := by
  unfold publish connectIfNeeded
  rw [if_neg (by simp [hn])]
  simp only [hch]

/-- Exhaustive description of the two ways a publish can succeed: with a
fresh connection (full connect sequence in the trace) or on the existing
live connection and channel (send only, state unchanged). -/
theorem publish_ok_cases {o o2 : Obj} {msg : Json}
    {hs : Option (List (String × String))} {t : List Event}
    (hok : publish o msg hs = .ok (o2, t)) :
    (needsConnect o.conn = true ∧
      o2 = { o with conn := some { id := o.nextId, isOpen := true },
                    channel := some { id := o.nextId + 1, isOpen := true },
                    nextId := o.nextId + 2 } ∧
      t = [ .openConnection o.nextId, .openChannel o.nextId (o.nextId + 1),
            .exchangeDeclare o.pub.EXCHANGE o.pub.TYPE true,
            .logInfo (connectLog o.pub),
            .basicPublish o.pub.EXCHANGE o.pub.ROUTING_KEY
              (utf8Encode (dumps msg)) (orEmpty hs),
            .logInfo "message sent to queue" ]) ∨
    (needsConnect o.conn = false ∧ o2 = o ∧
      t = [ .basicPublish o.pub.EXCHANGE o.pub.ROUTING_KEY
              (utf8Encode (dumps msg)) (orEmpty hs),
            .logInfo "message sent to queue" ]) := by
  cases hn : needsConnect o.conn with
  | true =>
    rw [publish_of_needs hn msg hs] at hok
    injection hok with h
    injection h with h1 h2
    exact Or.inl ⟨rfl, h1.symm, h2.symm⟩
  | false =>
    rcases (needsConnect_false_iff o.conn).mp hn with ⟨c, hc, hopen⟩
    cases hch : o.channel with
    | none =>
      rw [publish_no_channel hn hch msg hs] at hok
      exact Except.noConfusion hok
    | some ch =>
      cases hchopen : ch.isOpen with
      | true =>
        rw [publish_of_live hc hopen hch hchopen msg hs] at hok
        injection hok with h
        injection h with h1 h2
        exact Or.inr ⟨rfl, h1.symm, h2.symm⟩
      | false =>
        rw [publish_of_stale hc hopen hch hchopen msg hs] at hok
        exact Except.noConfusion hok

/-! ### C2 -/

/-- C2 (amended): a successful `publish` only ever sends with a live
connection and a live channel in the resulting state, and when the
connection guard fires (no connection, or prior connection closed) the full
connect sequence runs before `basic_publish`.  The channel's own state is
not part of the guard: a closed channel under an open connection is not
repaired (see the counterexample theorem), so the claim's "or channel is
closed" case had to be dropped. -/
theorem publish_ensures_connection (o : Obj) (msg : Json)
    (hs : Option (List (String × String))) (o2 : Obj) (t : List Event)
    (hok : publish o msg hs = .ok (o2, t)) :
    (∃ c, o2.conn = some c ∧ c.isOpen = true) ∧
    (∃ ch, o2.channel = some ch ∧ ch.isOpen = true) ∧
    (needsConnect o.conn = true →
      t = [ .openConnection o.nextId, .openChannel o.nextId (o.nextId + 1),
            .exchangeDeclare o.pub.EXCHANGE o.pub.TYPE true,
            .logInfo (connectLog o.pub),
            .basicPublish o.pub.EXCHANGE o.pub.ROUTING_KEY
              (utf8Encode (dumps msg)) (orEmpty hs),
            .logInfo "message sent to queue" ] ∧
      o2.conn = some { id := o.nextId, isOpen := true } ∧
      o2.channel = some { id := o.nextId + 1, isOpen := true }) := by
  refine ⟨(publish_ok_state hok).1, (publish_ok_state hok).2.1, ?_⟩
  intro hn
  rw [publish_of_needs hn msg hs] at hok
  injection hok with h
  injection h with h1 h2
  subst h1
  subst h2
  exact ⟨rfl, rfl, rfl⟩

/-- Witness for C2's amended theorem: the first publish from the fresh
object runs the connect sequence and ends with live connection 0 and
channel 1. -/
theorem publish_ensures_connection_witness :
    (∃ c, objLive.conn = some c ∧ c.isOpen = true) ∧
    (∃ ch, objLive.channel = some ch ∧ ch.isOpen = true) ∧
    (needsConnect objFull.conn = true →
      pubTrace1 = [ Event.openConnection 0, Event.openChannel 0 1,
            Event.exchangeDeclare "robot-shop" "direct" true,
            Event.logInfo (connectLog objFull.pub),
            Event.basicPublish "robot-shop" "orders"
              (utf8Encode (dumps msgA)) [],
            Event.logInfo "message sent to queue" ] ∧
      objLive.conn = some { id := 0, isOpen := true } ∧
      objLive.channel = some { id := 1, isOpen := true }) :=
  publish_ensures_connection objFull msgA none objLive pubTrace1 rfl

/-- C2, counterexample to the claim as stated: in a state reached by
construction, one successful publish, and a broker-side channel closure —
connection 0 open, channel 1 closed — `publish` does not establish a new
connection and channel before the message is published; it raises
`ChannelWrongStateError` and no message is sent at all. -/
theorem publish_stale_channel_counterexample :
    Publisher.init envFull = .ok objFull ∧
    publish objFull msgA none = .ok (objLive, pubTrace1) ∧
    brokerClosesChannel objLive = objStale ∧
    objStale.conn = some { id := 0, isOpen := true } ∧
    objStale.channel = some { id := 1, isOpen := false } ∧
    publish objStale msgA none = .error "ChannelWrongStateError" :=
  ⟨rfl, rfl, rfl, rfl, rfl, rfl⟩

/-! ### C3 -/

/-- C3: every successful publish's trace ends with exactly one
`basic_publish`, whose body is the UTF-8 encoding of the JSON serialization
of the message, on the configured exchange with the fixed configured routing
key and the supplied headers — `orEmpty` turning an omitted (`None`) headers
argument into the empty mapping — followed by the success log. -/
theorem publish_payload (o : Obj) (msg : Json)
    (hs : Option (List (String × String))) (o2 : Obj) (t : List Event)
    (hok : publish o msg hs = .ok (o2, t)) :
    (∃ pre,
      t = pre ++
        [ .basicPublish o.pub.EXCHANGE o.pub.ROUTING_KEY
            (utf8Encode (dumps msg)) (orEmpty hs),
          .logInfo "message sent to queue" ] ∧
      pre.all (fun e => !isBasicPublish e) = true) ∧
    orEmpty none = [] := by
  refine ⟨?_, rfl⟩
  rcases publish_ok_cases hok with ⟨_, _, ht⟩ | ⟨_, _, ht⟩
  · subst ht
    exact ⟨[ .openConnection o.nextId, .openChannel o.nextId (o.nextId + 1),
             .exchangeDeclare o.pub.EXCHANGE o.pub.TYPE true,
             .logInfo (connectLog o.pub) ], rfl, by simp [isBasicPublish]⟩
  · subst ht
    exact ⟨[], rfl, rfl⟩

/-- Witness for C3 at the first publish from the fresh object. -/
theorem publish_payload_witness :
    (∃ pre,
      pubTrace1 = pre ++
        [ Event.basicPublish "robot-shop" "orders"
            (utf8Encode (dumps msgA)) [],
          Event.logInfo "message sent to queue" ] ∧
      pre.all (fun e => !isBasicPublish e) = true) ∧
    orEmpty none = [] :=
  publish_payload objFull msgA none objLive pubTrace1 rfl

/-! ### C4 -/

/-- C4: two publishes in a row without an intervening close open at most one
connection in total, the second one reusing the first one's connection and
channel with no connect-sequence event at all; and a publish performed after
`close()` on an open connection runs exactly one reconnect sequence before
the message is sent. -/
theorem publish_reuse_and_reconnect :
    (∀ (o o1 o2 : Obj) (m1 m2 : Json) (h1 h2 : Option (List (String × String)))
        (t1 t2 : List Event),
        publish o m1 h1 = .ok (o1, t1) → publish o1 m2 h2 = .ok (o2, t2) →
        o2.conn = o1.conn ∧ o2.channel = o1.channel ∧
        t2.all (fun e => !isConnEstablishing e) = true ∧
        countOpens (t1 ++ t2) ≤ 1) ∧
    (∀ (o o1 : Obj) (tc : List Event) (c : Conn),
        o.conn = some c → c.isOpen = true → close o = (o1, tc) →
        ∀ (m : Json) (hs : Option (List (String × String))) (o2 : Obj)
          (t : List Event),
          publish o1 m hs = .ok (o2, t) →
          countOpens t = 1 ∧
          t = [ .openConnection o.nextId, .openChannel o.nextId (o.nextId + 1),
                .exchangeDeclare o.pub.EXCHANGE o.pub.TYPE true,
                .logInfo (connectLog o.pub),
                .basicPublish o.pub.EXCHANGE o.pub.ROUTING_KEY
                  (utf8Encode (dumps m)) (orEmpty hs),
                .logInfo "message sent to queue" ]) := by
  constructor
  · intro o o1 o2 m1 m2 h1 h2 t1 t2 hok1 hok2
    rcases publish_ok_state hok1 with ⟨⟨c, hc, hcopen⟩, ⟨ch, hch, hchopen⟩, _⟩
    rw [publish_of_live hc hcopen hch hchopen m2 h2] at hok2
    injection hok2 with h
    injection h with hA hB
    subst hA
    subst hB
    refine ⟨rfl, rfl, by simp [isConnEstablishing], ?_⟩
    rw [countOpens_append]
    have ht2 : countOpens
        [ Event.basicPublish o1.pub.EXCHANGE o1.pub.ROUTING_KEY
            (utf8Encode (dumps m2)) (orEmpty h2),
          Event.logInfo "message sent to queue" ] = 0 := rfl
    rw [ht2]
    rcases publish_ok_cases hok1 with ⟨_, _, ht1⟩ | ⟨_, _, ht1⟩ <;>
      subst ht1 <;> simp [countOpens]
  · intro o o1 tc c hc hcopen hclose m hs o2 t hok
    rw [close_of_open hc hcopen] at hclose
    injection hclose with hA hB
    subst hA
    have hn : needsConnect
        ({ o with conn := some { c with isOpen := false },
                  channel := o.channel.map
                    (fun ch => { ch with isOpen := false }) } : Obj).conn = true := rfl
    rw [publish_of_needs hn m hs] at hok
    injection hok with h
    injection h with h1 h2
    subst h2
    exact ⟨by simp [countOpens], rfl⟩

/-- Witness for C4: publish–publish from the fresh object (one connect, the
second trace free of connect events), and close-then-publish from the live
object (exactly one reconnect, ids 2 and 3). -/
theorem publish_reuse_and_reconnect_witness :
    (objLive.conn = objLive.conn ∧ objLive.channel = objLive.channel ∧
     pubTrace2.all (fun e => !isConnEstablishing e) = true ∧
     countOpens (pubTrace1 ++ pubTrace2) ≤ 1) ∧
    (countOpens pubTrace3 = 1 ∧
     pubTrace3 = [ Event.openConnection 2, Event.openChannel 2 3,
                   Event.exchangeDeclare "robot-shop" "direct" true,
                   Event.logInfo (connectLog objLive.pub),
                   Event.basicPublish "robot-shop" "orders"
                     (utf8Encode (dumps msgA)) [],
                   Event.logInfo "message sent to queue" ]) :=
  ⟨publish_reuse_and_reconnect.1 objFull objLive objLive msgA msgA none none
      pubTrace1 pubTrace2 rfl rfl,
   publish_reuse_and_reconnect.2 objLive objClosed [Event.closeConnection 0]
      { id := 0, isOpen := true } rfl rfl rfl msgA none objReconnected pubTrace3 rfl⟩

/-! ### C8 -/

/-- C8: `close()` on an open connection closes it (its `is_open` flag drops,
and exactly the close event is emitted); on a never-opened (`None`) or
already-closed connection it is a no-op — and `close` is a total function,
so it raises nothing. -/
theorem close_open_or_noop (o : Obj) :
    (∀ c, o.conn = some c → c.isOpen = true →
      (close o).1.conn = some { id := c.id, isOpen := false } ∧
      (close o).2 = [Event.closeConnection c.id]) ∧
    (o.conn = none → close o = (o, [])) ∧
    (∀ c, o.conn = some c → c.isOpen = false → close o = (o, [])) := by
  refine ⟨?_, ?_, ?_⟩
  · intro c hc hopen
    rw [close_of_open hc hopen]
    exact ⟨rfl, rfl⟩
  · intro hc
    unfold close
    rw [hc]
  · intro c hc hcl
    unfold close
    rw [hc]
    simp [hcl]

/-- Witness for C8: closing the live object, the never-connected object and
the already-closed object. -/
theorem close_open_or_noop_witness :
    ((close objLive).1.conn = some { id := 0, isOpen := false } ∧
     (close objLive).2 = [Event.closeConnection 0]) ∧
    close objFull = (objFull, []) ∧
    close objClosed = (objClosed, []) :=
  ⟨(close_open_or_noop objLive).1 { id := 0, isOpen := true } rfl rfl,
   (close_open_or_noop objFull).2.1 rfl,
   (close_open_or_noop objClosed).2.2 { id := 0, isOpen := false } rfl rfl⟩

end RobotShop
